import Mathlib

/-!
Verification of the spreadsheet import/validation/reconciliation pipeline of the
ranch-tools application, as implemented in
`ranch_tools/database_management/services/file_import_service.py`
(class `PregCheckImportService`) and in the legacy view-based importer in
`ranch_tools/database_management/views.py`
(`DatabaseManagementView.import_cow_pregcheck_records`).

Modelling conventions (a shallow embedding of the Python/pandas code):

* A parsed dataframe is an ordered list of typed row records together with the
  list of column headers the file actually had.  Cells that pandas reads as NaN
  are `none`.  Numeric cells (`birth_year`, `breeding_season`) are modelled
  post-parse as `Option Int`; `check_date` cells are modelled as an opaque
  already-parsed date `Option Nat` (so `pd.to_datetime(x).date()` on a present
  cell is the identity); text cells are `Option String`; the raw `recheck` cell
  is modelled as `Option Bool` with Python `bool()` on a present value the
  identity.
* Django model objects are rows of an explicit in-memory `Store`; a `Cow` gets
  the list length as its primary key at creation time.  `get_or_create` is an
  exact filter on the supplied field values; creating checks the model's
  uniqueness constraints (`eid` unique; (`ear_tag_id`, `birth_year`) unique
  together, with SQL NULL never conflicting).
* `transaction.atomic` with `transaction.set_rollback(True)` is modelled by
  `import_from_file` returning the store that is actually persisted after the
  call: the initial store on every failure or dry run, the mutated store on a
  committed success.
* Error messages are built exactly as the Python format strings build them.
-/

deriving instance DecidableEq for Except

namespace RanchTools

/-! ## Data model: the backing store (Django models `Cow` and `PregCheck`) -/

/-- A persisted `Cow` row (`preg_check.models.Cow`).  `id` is the primary key. -/
structure CowRec where
  id : Nat
  ear_tag_id : String
  birth_year : Option Int
  eid : Option String
  comments : String
deriving DecidableEq, Repr

/-- A persisted `PregCheck` row (`preg_check.models.PregCheck`).
`breeding_season` is a non-nullable integer column; `cow` is a nullable
foreign key held as the cow's primary key. -/
structure PregCheckRec where
  breeding_season : Int
  check_date : Option Nat
  comments : String
  cow : Option Nat
  is_pregnant : Option Bool
  recheck : Bool
deriving DecidableEq, Repr

/-- The backing database state seen by one import call. -/
structure Store where
  cows : List CowRec
  pregchecks : List PregCheckRec
deriving DecidableEq, Repr

/-- The empty database. -/
def emptyStore : Store := ⟨[], []⟩

/-! ## Dataframe model -/

/-- One raw row as read by `pd.read_csv`/`pd.read_excel` with
`dtype={'ear_tag_id': str, 'eid': str}` (cells typed post-parse, NaN = `none`). -/
structure Row where
  ear_tag_id : Option String
  birth_year : Option Int
  eid : Option String
  breeding_season : Option Int
  check_date : Option Nat
  comments : Option String
  is_pregnant : Option String
  recheck : Option Bool
deriving DecidableEq, Repr

/-- The parsed file: the column headers it actually had, plus its rows.
(The service only ever reads the eight required columns, so `Row` carries
exactly those; `columns` records which headers were present in the file.) -/
structure ParsedFile where
  columns : List String
  rows : List Row
deriving DecidableEq, Repr

/-- A row after `standardize_dataframe`: the `is_pregnant` column has been
mapped to booleans (pandas `map` sends unrecognised or NaN entries to NaN). -/
structure StdRow where
  ear_tag_id : Option String
  birth_year : Option Int
  eid : Option String
  breeding_season : Option Int
  check_date : Option Nat
  comments : Option String
  is_pregnant : Option Bool
  recheck : Option Bool
deriving DecidableEq, Repr

/-- A cleaned row of the temporary `df_check` frame built inside
`validate_dataframe` for duplicate checking. -/
structure CRow where
  ear_tag_id : Option String
  birth_year : Option Int
  eid : Option String
  check_date : Option Nat
deriving DecidableEq, Repr

/-- Errors surfaced to the caller: `django.core.exceptions.ValidationError`
and the service's custom `ImportError`, each carrying its message. -/
inductive ImportErr where
  | validation (msg : String)
  | importFailed (msg : String)
deriving DecidableEq, Repr

/-- Import statistics (`self.stats`). -/
structure Stats where
  cows_created : Nat
  pregchecks_created : Nat
  errors : List String
deriving DecidableEq, Repr

/-- `reset_stats`: the statistics at the start of an import call. -/
def resetStats : Stats := ⟨0, 0, []⟩

/-! ## Stage 2: column check -/

/-- `PregCheckImportService.REQUIRED_COLUMNS`. -/
def REQUIRED_COLUMNS : List String :=
  ["ear_tag_id", "birth_year", "eid", "breeding_season",
   "check_date", "comments", "is_pregnant", "recheck"]

/-- `assert_required_columns`: `none` when all required columns are present,
otherwise the `ValidationError` message naming every missing column. -/
def assert_required_columns (cols : List String) : Option String :=
  let missing_columns := REQUIRED_COLUMNS.filter (fun c => ¬ cols.contains c)
  if missing_columns.isEmpty then none
  else some ("Missing required columns: " ++ String.intercalate ", " missing_columns)

/-! ## String primitives

Python `str.strip()` and `str.lower()` are embedded as structurally
recursive functions on the character list (Lean's own `String.trim` and
`String.toLower` are defined by well-founded recursion, which the kernel
cannot evaluate inside proofs). -/

/-- Python `str.strip()`: drop whitespace from both ends. -/
def pyStrip (s : String) : String :=
  ⟨(((s.data.dropWhile Char.isWhitespace).reverse.dropWhile Char.isWhitespace).reverse)⟩

/-- Lower-case one character (ASCII, which covers every code the importer
recognises). -/
def asciiLowerChar (c : Char) : Char :=
  if 65 ≤ c.toNat ∧ c.toNat ≤ 90 then Char.ofNat (c.toNat + 32) else c

/-- Python `str.lower()`. -/
def pyLower (s : String) : String :=
  ⟨s.data.map asciiLowerChar⟩

/-! ## Stage 3: blank-row removal -/

/-- `_is_blank` on a text cell: NaN, or a string that strips to empty. -/
def isBlankStr : Option String → Bool
  | none => true
  | some s => pyStrip s == ""

/-- `_is_blank` on an already-numeric cell: only NaN is blank. -/
def isBlankInt : Option Int → Bool
  | none => true
  | some _ => false

/-- `_is_blank` on an already-parsed date cell: only NaN is blank. -/
def isBlankDate : Option Nat → Bool
  | none => true
  | some _ => false

/-- `_is_blank` on an already-boolean cell: only NaN is blank. -/
def isBlankBool : Option Bool → Bool
  | none => true
  | some _ => false

/-- A row is blank when every required column's cell is blank. -/
def isBlankRow (r : Row) : Bool :=
  isBlankStr r.ear_tag_id && isBlankInt r.birth_year && isBlankStr r.eid &&
  isBlankInt r.breeding_season && isBlankDate r.check_date &&
  isBlankStr r.comments && isBlankStr r.is_pregnant && isBlankBool r.recheck

/-- `remove_blank_rows`: asserts the required columns, then drops fully blank
rows and re-indexes (`reset_index(drop=True)` — positional indices thereafter). -/
def remove_blank_rows (file : ParsedFile) : Except ImportErr (List Row) :=
  match assert_required_columns file.columns with
  | some msg => .error (.validation msg)
  | none => .ok (file.rows.filter (fun r => ¬ isBlankRow r))

/-! ## Stage 4: normalization (`standardize_dataframe`) -/

/-- The composite of the two `is_pregnant` column transforms:
`str(x).strip().lower() if pd.notna(x) else x` followed by
`.map({'t': True, 'f': False, 'p': True, 'o': False})` (pandas `map` sends
NaN and any unlisted value to NaN). -/
def stdIsPregnant : Option String → Option Bool
  | none => none
  | some s =>
    match pyLower (pyStrip s) with
    | "t" => some true
    | "f" => some false
    | "p" => some true
    | "o" => some false
    | _ => none

/-- Apply the `is_pregnant` transforms to one row. -/
def toStdRow (r : Row) : StdRow :=
  { ear_tag_id := r.ear_tag_id
    birth_year := r.birth_year
    eid := r.eid
    breeding_season := r.breeding_season
    check_date := r.check_date
    comments := r.comments
    is_pregnant := stdIsPregnant r.is_pregnant
    recheck := r.recheck }

/-- `standardize_dataframe`: maps the `is_pregnant` column, then asserts every
entry is a boolean (`df['is_pregnant'].isin([True, False]).all()`). -/
def standardize_dataframe (rows : List Row) : Except ImportErr (List StdRow) :=
  let df := rows.map toStdRow
  if df.all (fun r => r.is_pregnant.isSome) then .ok df
  else .error (.validation "Invalid values in \"is_pregnant\" column. Use T/F or P/O.")

/-! ## Stages 5–6: validation (`validate_dataframe` and the duplicate checks) -/

/-- Build one row of the temporary cleaned `df_check` frame. -/
def cleanRow (r : StdRow) : CRow :=
  { ear_tag_id := r.ear_tag_id.map pyStrip
    birth_year := r.birth_year
    eid := r.eid.map pyStrip
    check_date := r.check_date }

/-- The Group A key of a `df_check` row, when the row passes the filter
`ear_tag_id.notna() & (ear_tag_id != '') & birth_year.notna() & check_date.notna()`. -/
def earTagKeyOf (r : CRow) : Option (String × Int × Nat) :=
  match r.ear_tag_id, r.birth_year, r.check_date with
  | some t, some y, some d => if t == "" then none else some (t, y, d)
  | _, _, _ => none

/-- The Group B key of a `df_check` row, when the row passes the filter
`eid.notna() & (eid != '') & check_date.notna()`. -/
def eidKeyOf (r : CRow) : Option (String × Nat) :=
  match r.eid, r.check_date with
  | some e, some d => if e == "" then none else some (e, d)
  | _, _ => none

/-- The Group A keys that occur on at least two filtered rows
(`duplicated(subset=..., keep=False)` followed by `groupby(...).size()`).
Pandas iterates the groups in sorted key order; only the ordering of the
reported groups differs here (first occurrence order), which nothing
downstream depends on. -/
def earTagDupKeys (dfc : List CRow) : List (String × Int × Nat) :=
  let keys := dfc.filterMap earTagKeyOf
  (keys.filter (fun k => 2 ≤ keys.count k)).dedup

/-- Likewise for Group B. -/
def eidDupKeys (dfc : List CRow) : List (String × Nat) :=
  let keys := dfc.filterMap eidKeyOf
  (keys.filter (fun k => 2 ≤ keys.count k)).dedup

/-- The boolean mask over the whole `df_check` frame used to collect the row
numbers of one Group A duplicate group. -/
def earTagMask (k : String × Int × Nat) (r : CRow) : Bool :=
  r.ear_tag_id == some k.1 && r.birth_year == some k.2.1 && r.check_date == some k.2.2

/-- Likewise for one Group B group. -/
def eidMask (k : String × Nat) (r : CRow) : Bool :=
  r.eid == some k.1 && r.check_date == some k.2

/-- Reported row numbers of one Group A group: positional indices of the mask
over the whole frame, plus 2 (`df_check[mask].index + 2`). -/
def earTagRowNumbers (dfc : List CRow) (k : String × Int × Nat) : List Nat :=
  ((List.range dfc.length).filter (fun i =>
    match dfc[i]? with
    | some r => earTagMask k r
    | none => false)).map (· + 2)

/-- Likewise for one Group B group. -/
def eidRowNumbers (dfc : List CRow) (k : String × Nat) : List Nat :=
  ((List.range dfc.length).filter (fun i =>
    match dfc[i]? with
    | some r => eidMask k r
    | none => false)).map (· + 2)

/-- `_check_duplicates_by_ear_tag`: one error detail string per duplicate
group (the source returns `None` for "no duplicates", which its caller treats
the same as the empty list). -/
def check_duplicates_by_ear_tag (dfc : List CRow) : List String :=
  (earTagDupKeys dfc).map (fun k =>
    "Duplicate. Ear Tag: " ++ k.1 ++ ", Birth Year: " ++ toString k.2.1 ++
    ", Check Date: " ++ toString k.2.2 ++ " (rows: " ++
    String.intercalate ", " ((earTagRowNumbers dfc k).map toString) ++ ")")

/-- `_check_duplicates_by_eid`. -/
def check_duplicates_by_eid (dfc : List CRow) : List String :=
  (eidDupKeys dfc).map (fun k =>
    "Duplicate. EID: " ++ k.1 ++ ", Check Date: " ++ toString k.2 ++
    " (rows: " ++ String.intercalate ", " ((eidRowNumbers dfc k).map toString) ++ ")")

/-- The combined `DuplicateRecords` message built in `validate_dataframe`. -/
def duplicatesErrorMessage (ds : List String) : String :=
  "Found " ++ toString ds.length ++ " duplicate records:<br><ul>" ++
  String.join (ds.map (fun d => "<li>" ++ d ++ "</li>")) ++ "</ul>"

/-- `validate_dataframe`: re-asserts the columns, checks `check_date` then
`is_pregnant` for empty values (on the standardized frame `check_date` is a
date-or-NaN column and `is_pregnant` a boolean-or-NaN column, so pandas'
"string that strips to empty" half of each test is vacuous), then runs both
duplicate checks and combines their findings into one failure. -/
def validate_dataframe (cols : List String) (df : List StdRow) : Option ImportErr :=
  match assert_required_columns cols with
  | some msg => some (.validation msg)
  | none =>
    if df.any (fun r => r.check_date.isNone) then
      some (.validation "Required field \"check_date\" contains empty values")
    else if df.any (fun r => r.is_pregnant.isNone) then
      some (.validation "Required field \"is_pregnant\" contains empty values")
    else
      let dfc := df.map cleanRow
      let dups := check_duplicates_by_ear_tag dfc ++ check_duplicates_by_eid dfc
      if dups.isEmpty then none
      else some (.validation (duplicatesErrorMessage dups))

/-! ## Stage 7: per-row reconciliation -/

/-- `extract_cow_data`'s result for one row.  (`comments` comes from a
`cow_comments` column that is never among the required columns, hence `''`.) -/
structure CowData where
  ear_tag_id : String
  birth_year : Option Int
  eid : Option String
  comments : String
deriving DecidableEq, Repr

/-- `extract_pregcheck_data`'s result for one row. -/
structure PregCheckData where
  cow : Option Nat
  breeding_season : Option Int
  check_date : Option Nat
  comments : String
  is_pregnant : Option Bool
  recheck : Bool
deriving DecidableEq, Repr

/-- `extract_cow_data`. -/
def extract_cow_data (r : StdRow) : CowData :=
  { ear_tag_id := match r.ear_tag_id with | some s => pyStrip s | none => ""
    birth_year := r.birth_year
    eid := r.eid.map pyStrip
    comments := "" }

/-- `extract_pregcheck_data`. -/
def extract_pregcheck_data (r : StdRow) (cow : Option Nat) : PregCheckData :=
  { cow := cow
    breeding_season := r.breeding_season
    check_date := r.check_date
    comments := match r.comments with | some s => pyStrip s | none => ""
    is_pregnant := r.is_pregnant
    recheck := r.recheck.getD false }

/-- Python truthiness of the `eid` value held in `cow_data` (`None` and the
empty string are falsy). -/
def strTruthy : Option String → Bool
  | none => false
  | some s => s ≠ ""

/-- Python truthiness of the `birth_year` value held in `cow_data` (`None`
and `0` are falsy). -/
def intTruthy : Option Int → Bool
  | none => false
  | some n => n ≠ 0

/-- `Cow.objects.create` inside `get_or_create`: fails with `IntegrityError`
when a uniqueness constraint is violated (`eid` unique; (`ear_tag_id`,
`birth_year`) unique together, NULL `birth_year` never conflicting, as in
SQLite).  The new cow's primary key is the current table size. -/
def createCow (s : Store) (tag : String) (by_ : Option Int) (eid : Option String) :
    Except String (Nat × Store) :=
  if eid.isSome && s.cows.any (fun c => c.eid == eid) then
    .error "UNIQUE constraint failed: preg_check_cow.eid"
  else if by_.isSome && s.cows.any (fun c => c.ear_tag_id == tag && c.birth_year == by_) then
    .error "UNIQUE constraint failed: preg_check_cow.ear_tag_id, preg_check_cow.birth_year"
  else
    .ok (s.cows.length, { s with cows := s.cows ++ [⟨s.cows.length, tag, by_, eid, ""⟩] })

/-- `get_or_create_cow`: returns the cow's primary key (or `none`), the
`created` flag, and the store.  The error cases are the storage layer's
`MultipleObjectsReturned` and `IntegrityError` exceptions, which the caller
records as per-row errors. -/
def get_or_create_cow (s : Store) (cd : CowData) :
    Except String (Option Nat × Bool × Store) :=
  if strTruthy cd.eid then
    match s.cows.filter (fun c =>
        c.eid == cd.eid && c.birth_year == cd.birth_year && c.ear_tag_id == cd.ear_tag_id) with
    | [c] => .ok (some c.id, false, s)
    | [] =>
      match createCow s cd.ear_tag_id cd.birth_year cd.eid with
      | .error e => .error e
      | .ok (i, s') => .ok (some i, true, s')
    | _ => .error "get() returned more than one Cow -- it returned more than one!"
  else if cd.ear_tag_id ≠ "" && intTruthy cd.birth_year then
    match s.cows.filter (fun c =>
        c.ear_tag_id == cd.ear_tag_id && c.birth_year == cd.birth_year) with
    | [c] => .ok (some c.id, false, s)
    | [] =>
      match createCow s cd.ear_tag_id cd.birth_year none with
      | .error e => .error e
      | .ok (i, s') => .ok (some i, true, s')
    | _ => .error "get() returned more than one Cow -- it returned more than one!"
  else
    .ok (none, false, s)

/-- `PregCheck.objects.create(**pregcheck_data)`: the `breeding_season`
column is NOT NULL, so creating with `None` raises `IntegrityError`. -/
def createPregCheck (d : PregCheckData) : Except String PregCheckRec :=
  match d.breeding_season with
  | none => .error "NOT NULL constraint failed: preg_check_pregcheck.breeding_season"
  | some n => .ok ⟨n, d.check_date, d.comments, d.cow, d.is_pregnant, d.recheck⟩

/-- `process_row`: resolves the cow, then creates the check record.  Returns
the store as mutated up to the point of any exception (a cow created before a
failing check creation stays in the transaction's working state) and either
the `cow_created` flag or the exception message. -/
def process_row (s : Store) (r : StdRow) : Store × Except String Bool :=
  match get_or_create_cow s (extract_cow_data r) with
  | .error e => (s, .error e)
  | .ok (cow, created, s₁) =>
    match createPregCheck (extract_pregcheck_data r cow) with
    | .error e => (s₁, .error e)
    | .ok pc => ({ s₁ with pregchecks := s₁.pregchecks ++ [pc] }, .ok created)

/-- The loop body accumulator of `process_dataframe` (`idx` is the positional
index of `df.iterrows` on the re-indexed frame). -/
def process_dataframe_aux (idx : Nat) (s : Store) (df : List StdRow) (st : Stats) :
    Store × Stats :=
  match df with
  | [] => (s, st)
  | r :: rest =>
    match process_row s r with
    | (s', .ok created) =>
      process_dataframe_aux (idx + 1) s' rest
        { st with
          cows_created := st.cows_created + (if created then 1 else 0)
          pregchecks_created := st.pregchecks_created + 1 }
    | (s', .error e) =>
      process_dataframe_aux (idx + 1) s' rest
        { st with errors := st.errors ++ ["Row " ++ toString (idx + 2) ++ ": " ++ e] }

/-- `process_dataframe`. -/
def process_dataframe (s : Store) (df : List StdRow) : Store × Stats :=
  process_dataframe_aux 0 s df resetStats

/-! ## Stage 8: commit decision (`import_from_file`) -/

/-- The `ImportError` message: total error count, then the first five error
messages, then a count of the remainder when there are more than five. -/
def importFailedMessage (errors : List String) : String :=
  let error_summary := String.intercalate "\n" (errors.take 5)
  let error_summary :=
    if 5 < errors.length then
      error_summary ++ "\n... and " ++ toString (errors.length - 5) ++ " more errors"
    else error_summary
  "Import failed with " ++ toString errors.length ++ " errors:\n" ++ error_summary

/-- `import_from_file`, from the parsed dataframe onward.  The first component
is the store that is persisted once the call returns: the transaction commits
the working store only when stage 7 recorded no errors and `dry_run` is false;
`transaction.set_rollback(True)` (any errors, or a dry run) and every raised
validation error leave the initial store in place. -/
def import_from_file (s : Store) (file : ParsedFile) (dry_run : Bool) :
    Store × Except ImportErr Stats :=
  match remove_blank_rows file with
  | .error e => (s, .error e)
  | .ok rows =>
    match standardize_dataframe rows with
    | .error e => (s, .error e)
    | .ok df =>
      match validate_dataframe file.columns df with
      | some e => (s, .error e)
      | none =>
        let res := process_dataframe s df
        if res.2.errors.isEmpty then
          if dry_run then (s, .ok res.2) else (res.1, .ok res.2)
        else (s, .error (.importFailed (importFailedMessage res.2.errors)))

/-! ## The legacy view-based importer
(`DatabaseManagementView.import_cow_pregcheck_records` in
`database_management/views.py`).  This path reads the file with no `dtype`
forcing and runs with no transaction: each row is tried in turn; an exception
is caught, recorded as `'Row {idx+1}: ...'`, and the loop continues. -/

/-- One raw row of the legacy importer's dataframe.  Cells are modelled as
the strings pandas would render (numeric cells by their rendered digits);
NaN is `none`. -/
structure LegacyRow where
  ear_tag_id : Option String
  birth_year : Option Int
  eid : Option String
  breeding_season : Option Int
  check_date : Option Nat
  comments : Option String
  is_pregnant : Option String
  recheck : Option String
deriving DecidableEq, Repr

/-- Python `str()` on a cell: `str(nan)` is the string `"nan"`. -/
def pyStr : Option String → String
  | none => "nan"
  | some s => s

/-- Python truthiness of the legacy `eid` local (`None` and `''` falsy). -/
def legacyEidTruthy : Option String → Bool
  | none => false
  | some s => s ≠ ""

/-- Python `bool()` on an `is_pregnant` cell: `bool(nan)` is `True`, and on a
string it tests non-emptiness (the legacy importer does not decode the
`T`/`F`/`P`/`O` codes). -/
def pyBoolCell : Option String → Bool
  | none => true
  | some s => s ≠ ""

/-- `Cow.objects.get_or_create(**cow_id_params)` with the legacy importer's
dynamic parameter set: `birth_year` is always a lookup key, `ear_tag_id` and
`eid` only when truthy.  A created cow gets the model defaults for the
omitted fields (`''` ear tag, NULL eid). -/
def legacyGetOrCreate (s : Store) (tag : String) (by_ : Int) (eid : Option String) :
    Except String (Nat × Store) :=
  if tag ≠ "" && legacyEidTruthy eid then
    match s.cows.filter (fun c =>
        c.ear_tag_id == tag && c.birth_year == some by_ && c.eid == eid) with
    | [c] => .ok (c.id, s)
    | [] => createCow s tag (some by_) eid
    | _ => .error "get() returned more than one Cow -- it returned more than one!"
  else if tag ≠ "" then
    match s.cows.filter (fun c =>
        c.ear_tag_id == tag && c.birth_year == some by_) with
    | [c] => .ok (c.id, s)
    | [] => createCow s tag (some by_) none
    | _ => .error "get() returned more than one Cow -- it returned more than one!"
  else
    match s.cows.filter (fun c =>
        c.birth_year == some by_ && c.eid == eid) with
    | [c] => .ok (c.id, s)
    | [] => createCow s "" (some by_) eid
    | _ => .error "get() returned more than one Cow -- it returned more than one!"

/-- One iteration of the legacy importer's row loop, up to the caught
exception: returns the store as mutated by the row and `some message` when
the row failed (`int()` on NaN raises; `pd.to_datetime(...).date()` on NaN
raises; the explicit falsy-`birth_year` guard appends its own message). -/
def legacyProcessRow (s : Store) (r : LegacyRow) : Store × Option String :=
  match r.birth_year with
  | none => (s, some "cannot convert float NaN to integer")
  | some by_ =>
    let tag := pyStrip (pyStr r.ear_tag_id)
    let eid := r.eid.map pyStrip
    let no_cow_id := tag == "" && !(legacyEidTruthy eid)
    if !no_cow_id && by_ == 0 then
      (s, some "birth_year is required when ear_tag_id or eid is provided")
    else
      match r.breeding_season with
      | none => (s, some "cannot convert float NaN to integer")
      | some season =>
        match r.check_date with
        | none => (s, some "NaTType does not support date")
        | some cd =>
          let comments := match r.comments with | some c => pyStrip c | none => ""
          let is_pregnant := pyBoolCell r.is_pregnant
          let recheck := match r.recheck with | some v => v ≠ "" | none => false
          if no_cow_id then
            ({ s with pregchecks :=
                s.pregchecks ++ [⟨season, some cd, comments, none, some is_pregnant, recheck⟩] },
             none)
          else
            match legacyGetOrCreate s tag by_ eid with
            | .error e => (s, some e)
            | .ok (cid, s₁) =>
              ({ s₁ with pregchecks :=
                  s₁.pregchecks ++ [⟨season, some cd, comments, some cid, some is_pregnant, recheck⟩] },
               none)

/-- The legacy row loop from positional index `idx` onward, accumulating
errors in row order; there is no transaction, so the store threads straight
through failures. -/
def legacyAux (idx : Nat) (s : Store) (rows : List LegacyRow) : Store × List String :=
  match rows with
  | [] => (s, [])
  | r :: rest =>
    match legacyProcessRow s r with
    | (s', none) => legacyAux (idx + 1) s' rest
    | (s', some msg) =>
      let res := legacyAux (idx + 1) s' rest
      (res.1, ("Row " ++ toString (idx + 1) ++ ": " ++ msg) :: res.2)

/-- `import_cow_pregcheck_records`: iterate all rows, returning the final
store and the collected error messages. -/
def import_cow_pregcheck_records (s : Store) (rows : List LegacyRow) :
    Store × List String :=
  legacyAux 0 s rows

/-- One store extends another when every already-persisted row is still
there, in place, with new rows only appended. -/
def StoreExtends (s s' : Store) : Prop :=
  s.cows <+: s'.cows ∧ s.pregchecks <+: s'.pregchecks

instance (s s' : Store) : Decidable (StoreExtends s s') := by
  unfold StoreExtends; infer_instance

/-! ## Sample data used by the concrete witnesses -/

/-- A fully valid import row. -/
def sampleRow : Row :=
  { ear_tag_id := some "123", birth_year := some 2020, eid := some "EID123",
    breeding_season := some 2024, check_date := some 738959, comments := some "ok",
    is_pregnant := some "P", recheck := some false }

/-- A second valid row with a distinct identity and check date. -/
def sampleRow2 : Row :=
  { ear_tag_id := some "456", birth_year := some 2021, eid := some "EID456",
    breeding_season := some 2024, check_date := some 738960, comments := some "",
    is_pregnant := some "T", recheck := some false }

/-! ## Claim theorems -/

/-! ## Helper lemmas about the duplicate-detection machinery -/

lemma two_le_countP_of_lt {α : Type} (l : List α) (p : α → Bool) {i j : Nat}
    (hij : i < j) (hj : j < l.length)
    (hpi : p (l.get ⟨i, Nat.lt_trans hij hj⟩) = true) (hpj : p (l.get ⟨j, hj⟩) = true) :
    2 ≤ l.countP p := by
  have hi : i < l.length := Nat.lt_trans hij hj
  have h1 : 0 < (l.take j).countP p := by
    rw [List.countP_pos_iff]
    refine ⟨l.get ⟨i, hi⟩, ?_, hpi⟩
    have hlen : i < (l.take j).length := by
      rw [List.length_take]; exact Nat.lt_min.mpr ⟨hij, hi⟩
    have hgt : (l.take j).get ⟨i, hlen⟩ = l.get ⟨i, hi⟩ := by
      simp [List.get_eq_getElem]
    rw [← hgt]; exact List.get_mem _ _ _
  have h2 : 0 < (l.drop j).countP p := by
    rw [List.countP_pos_iff]
    refine ⟨l.get ⟨j, hj⟩, ?_, hpj⟩
    have hlen : 0 < (l.drop j).length := by
      rw [List.length_drop]; omega
    have hgd : (l.drop j).get ⟨0, hlen⟩ = l.get ⟨j, hj⟩ := by
      simp [List.get_eq_getElem]
    rw [← hgd]; exact List.get_mem _ _ _
  have h3 : l.countP p = (l.take j).countP p + (l.drop j).countP p := by
    rw [← List.countP_append, List.take_append_drop]
  omega

lemma two_le_countP {α : Type} (l : List α) (p : α → Bool) {i j : Nat}
    (hi : i < l.length) (hj : j < l.length) (hne : i ≠ j)
    (hpi : p (l.get ⟨i, hi⟩) = true) (hpj : p (l.get ⟨j, hj⟩) = true) :
    2 ≤ l.countP p := by
  rcases Nat.lt_or_ge i j with h | h
  · exact two_le_countP_of_lt l p h hj hpi hpj
  · exact two_le_countP_of_lt l p (Nat.lt_of_le_of_ne h (Ne.symm hne)) hi hpj hpi

lemma count_filterMap_eq_countP {α β : Type} [BEq β] [LawfulBEq β] (f : α → Option β)
    (l : List α) (k : β) :
    (l.filterMap f).count k = l.countP (fun a => f a == some k) := by
  induction l with
  | nil => simp
  | cons a t ih =>
    cases h : f a with
    | none => simp [List.filterMap_cons, h, List.countP_cons, ih]
    | some b =>
      by_cases hbk : b = k
      · subst hbk
        simp [List.filterMap_cons, h, List.countP_cons, List.count_cons, ih]
      · simp [List.filterMap_cons, h, List.countP_cons, List.count_cons, ih, hbk,
          Ne.symm hbk]

lemma earTagMask_of_keyOf {r : CRow} {k : String × Int × Nat}
    (h : earTagKeyOf r = some k) : earTagMask k r = true := by
  rcases r with ⟨t, y, e, d⟩
  cases t with
  | none => exact absurd h (by simp [earTagKeyOf])
  | some t =>
    cases y with
    | none => exact absurd h (by simp [earTagKeyOf])
    | some y =>
      cases d with
      | none => exact absurd h (by simp [earTagKeyOf])
      | some d =>
        simp only [earTagKeyOf] at h
        by_cases ht : (t == "") = true
        · rw [if_pos ht] at h; cases h
        · rw [if_neg ht] at h
          injection h with h
          subst h
          simp [earTagMask]

lemma keyOf_of_earTagMask {r : CRow} {k : String × Int × Nat} (hk : ¬ k.1 = "")
    (hm : earTagMask k r = true) : earTagKeyOf r = some k := by
  rcases r with ⟨t, y, e, d⟩
  simp only [earTagMask, Bool.and_eq_true, beq_iff_eq] at hm
  obtain ⟨⟨h1, h2⟩, h3⟩ := hm
  subst h1; subst h2; subst h3
  simp [earTagKeyOf, hk]

lemma earTag_key_fst_ne_empty {dfc : List CRow} {k : String × Int × Nat}
    (h : k ∈ dfc.filterMap earTagKeyOf) : ¬ k.1 = "" := by
  rw [List.mem_filterMap] at h
  obtain ⟨r, _, hr⟩ := h
  rcases r with ⟨t, y, e, d⟩
  cases t with
  | none => exact absurd hr (by simp [earTagKeyOf])
  | some t =>
    cases y with
    | none => exact absurd hr (by simp [earTagKeyOf])
    | some y =>
      cases d with
      | none => exact absurd hr (by simp [earTagKeyOf])
      | some d =>
        simp only [earTagKeyOf] at hr
        by_cases ht : (t == "") = true
        · rw [if_pos ht] at hr; cases hr
        · rw [if_neg ht] at hr
          injection hr with hr
          subst hr
          simpa using ht

lemma mem_earTagDupKeys_of_two {dfc : List CRow} {i j : Nat} {k : String × Int × Nat}
    (hi : i < dfc.length) (hj : j < dfc.length) (hne : i ≠ j)
    (hki : earTagKeyOf (dfc.get ⟨i, hi⟩) = some k)
    (hkj : earTagKeyOf (dfc.get ⟨j, hj⟩) = some k) :
    k ∈ earTagDupKeys dfc := by
  simp only [earTagDupKeys]
  rw [List.mem_dedup, List.mem_filter]
  refine ⟨List.mem_filterMap.mpr ⟨dfc.get ⟨i, hi⟩, List.get_mem _ _ _, hki⟩, ?_⟩
  simp only [decide_eq_true_eq]
  rw [count_filterMap_eq_countP]
  exact two_le_countP dfc _ hi hj hne (by simpa using hki) (by simpa using hkj)

lemma mem_earTagRowNumbers {dfc : List CRow} {k : String × Int × Nat} {i : Nat}
    (hi : i < dfc.length) (hm : earTagMask k (dfc.get ⟨i, hi⟩) = true) :
    i + 2 ∈ earTagRowNumbers dfc k := by
  unfold earTagRowNumbers
  apply List.mem_map_of_mem
  rw [List.mem_filter]
  refine ⟨List.mem_range.mpr hi, ?_⟩
  rw [List.getElem?_eq_getElem hi]
  simpa using hm

lemma not_mem_earTagRowNumbers {dfc : List CRow} {k : String × Int × Nat} {i : Nat}
    (hi : i < dfc.length) (hk : earTagKeyOf (dfc.get ⟨i, hi⟩) = none)
    (hdup : k ∈ earTagDupKeys dfc) : i + 2 ∉ earTagRowNumbers dfc k := by
  intro hmem
  have hk1 : ¬ k.1 = "" := by
    simp only [earTagDupKeys] at hdup
    rw [List.mem_dedup, List.mem_filter] at hdup
    exact earTag_key_fst_ne_empty hdup.1
  unfold earTagRowNumbers at hmem
  rw [List.mem_map] at hmem
  obtain ⟨a, ha, hax⟩ := hmem
  have hai : a = i := by omega
  rw [hai] at ha
  rw [List.mem_filter] at ha
  have hp := ha.2
  rw [List.getElem?_eq_getElem hi] at hp
  have hmask : earTagMask k (dfc.get ⟨i, hi⟩) = true := by simpa using hp
  have hkey := keyOf_of_earTagMask hk1 hmask
  rw [hk] at hkey
  cases hkey

lemma eidMask_of_keyOf {r : CRow} {k : String × Nat}
    (h : eidKeyOf r = some k) : eidMask k r = true := by
  rcases r with ⟨t, y, e, d⟩
  cases e with
  | none => exact absurd h (by simp [eidKeyOf])
  | some e =>
    cases d with
    | none => exact absurd h (by simp [eidKeyOf])
    | some d =>
      simp only [eidKeyOf] at h
      by_cases he : (e == "") = true
      · rw [if_pos he] at h; cases h
      · rw [if_neg he] at h
        injection h with h
        subst h
        simp [eidMask]

lemma keyOf_of_eidMask {r : CRow} {k : String × Nat} (hk : ¬ k.1 = "")
    (hm : eidMask k r = true) : eidKeyOf r = some k := by
  rcases r with ⟨t, y, e, d⟩
  simp only [eidMask, Bool.and_eq_true, beq_iff_eq] at hm
  obtain ⟨h1, h2⟩ := hm
  subst h1; subst h2
  simp [eidKeyOf, hk]

lemma eid_key_fst_ne_empty {dfc : List CRow} {k : String × Nat}
    (h : k ∈ dfc.filterMap eidKeyOf) : ¬ k.1 = "" := by
  rw [List.mem_filterMap] at h
  obtain ⟨r, _, hr⟩ := h
  rcases r with ⟨t, y, e, d⟩
  cases e with
  | none => exact absurd hr (by simp [eidKeyOf])
  | some e =>
    cases d with
    | none => exact absurd hr (by simp [eidKeyOf])
    | some d =>
      simp only [eidKeyOf] at hr
      by_cases he : (e == "") = true
      · rw [if_pos he] at hr; cases hr
      · rw [if_neg he] at hr
        injection hr with hr
        subst hr
        simpa using he

lemma mem_eidDupKeys_of_two {dfc : List CRow} {i j : Nat} {k : String × Nat}
    (hi : i < dfc.length) (hj : j < dfc.length) (hne : i ≠ j)
    (hki : eidKeyOf (dfc.get ⟨i, hi⟩) = some k)
    (hkj : eidKeyOf (dfc.get ⟨j, hj⟩) = some k) :
    k ∈ eidDupKeys dfc := by
  simp only [eidDupKeys]
  rw [List.mem_dedup, List.mem_filter]
  refine ⟨List.mem_filterMap.mpr ⟨dfc.get ⟨i, hi⟩, List.get_mem _ _ _, hki⟩, ?_⟩
  simp only [decide_eq_true_eq]
  rw [count_filterMap_eq_countP]
  exact two_le_countP dfc _ hi hj hne (by simpa using hki) (by simpa using hkj)

lemma mem_eidRowNumbers {dfc : List CRow} {k : String × Nat} {i : Nat}
    (hi : i < dfc.length) (hm : eidMask k (dfc.get ⟨i, hi⟩) = true) :
    i + 2 ∈ eidRowNumbers dfc k := by
  unfold eidRowNumbers
  apply List.mem_map_of_mem
  rw [List.mem_filter]
  refine ⟨List.mem_range.mpr hi, ?_⟩
  rw [List.getElem?_eq_getElem hi]
  simpa using hm

lemma not_mem_eidRowNumbers {dfc : List CRow} {k : String × Nat} {i : Nat}
    (hi : i < dfc.length) (hk : eidKeyOf (dfc.get ⟨i, hi⟩) = none)
    (hdup : k ∈ eidDupKeys dfc) : i + 2 ∉ eidRowNumbers dfc k := by
  intro hmem
  have hk1 : ¬ k.1 = "" := by
    simp only [eidDupKeys] at hdup
    rw [List.mem_dedup, List.mem_filter] at hdup
    exact eid_key_fst_ne_empty hdup.1
  unfold eidRowNumbers at hmem
  rw [List.mem_map] at hmem
  obtain ⟨a, ha, hax⟩ := hmem
  have hai : a = i := by omega
  rw [hai] at ha
  rw [List.mem_filter] at ha
  have hp := ha.2
  rw [List.getElem?_eq_getElem hi] at hp
  have hmask : eidMask k (dfc.get ⟨i, hi⟩) = true := by simpa using hp
  have hkey := keyOf_of_eidMask hk1 hmask
  rw [hk] at hkey
  cases hkey

lemma validate_dataframe_dup_result {cols : List String} {df : List StdRow}
    (hcols : assert_required_columns cols = none)
    (hcd : ∀ r ∈ df, r.check_date.isSome) (hip : ∀ r ∈ df, r.is_pregnant.isSome)
    (hne : check_duplicates_by_ear_tag (df.map cleanRow) ++
        check_duplicates_by_eid (df.map cleanRow) ≠ []) :
    validate_dataframe cols df = some (.validation (duplicatesErrorMessage
      (check_duplicates_by_ear_tag (df.map cleanRow) ++
        check_duplicates_by_eid (df.map cleanRow)))) := by
  have h1 : df.any (fun r => r.check_date.isNone) = false := by
    rw [List.any_eq_false]
    intro r hr
    have := hcd r hr
    cases hcase : r.check_date <;> simp_all
  have h2 : df.any (fun r => r.is_pregnant.isNone) = false := by
    rw [List.any_eq_false]
    intro r hr
    have := hip r hr
    cases hcase : r.is_pregnant <;> simp_all
  have hne' : (check_duplicates_by_ear_tag (df.map cleanRow) ++
      check_duplicates_by_eid (df.map cleanRow)).isEmpty = false := by
    simpa [List.isEmpty_iff] using hne
  simp [validate_dataframe, hcols, h1, h2, hne']

lemma import_fails_with {s : Store} {file : ParsedFile} {d : Bool}
    {rows : List Row} {df : List StdRow} {e : ImportErr}
    (hrb : remove_blank_rows file = .ok rows)
    (hsd : standardize_dataframe rows = .ok df)
    (hv : validate_dataframe file.columns df = some e) :
    import_from_file s file d = (s, .error e) := by
  simp [import_from_file, hrb, hsd, hv]

/-- C3: whenever one or more of the eight required columns is missing, the
whole call fails immediately — for every store, every row content and either
dry-run setting — with the validation failure naming every missing column,
and the store is untouched. -/
theorem missing_columns_fail_entire_import (s : Store) (file : ParsedFile) (d : Bool)
    (h : REQUIRED_COLUMNS.filter (fun c => ¬ file.columns.contains c) ≠ []) :
    import_from_file s file d =
      (s, .error (.validation ("Missing required columns: " ++
        String.intercalate ", "
          (REQUIRED_COLUMNS.filter (fun c => ¬ file.columns.contains c))))) := by
  have h' : (REQUIRED_COLUMNS.filter (fun c => ¬ file.columns.contains c)).isEmpty = false := by
    simpa [List.isEmpty_iff] using h
  have ha : assert_required_columns file.columns =
      some ("Missing required columns: " ++ String.intercalate ", "
        (REQUIRED_COLUMNS.filter (fun c => ¬ file.columns.contains c))) := by
    unfold assert_required_columns
    simp only [h', Bool.false_eq_true, if_false]
  simp [import_from_file, remove_blank_rows, ha]

/-- Witness for C3: a file having only two of the required columns fails with
the message naming all six missing columns, with rows present but unprocessed. -/
theorem missing_columns_fail_entire_import_witness :
    import_from_file emptyStore ⟨["ear_tag_id", "birth_year"], [sampleRow]⟩ false =
      (emptyStore, .error (.validation
        "Missing required columns: eid, breeding_season, check_date, comments, is_pregnant, recheck")) :=
  missing_columns_fail_entire_import emptyStore ⟨["ear_tag_id", "birth_year"], [sampleRow]⟩
    false (by decide)

/-- C1: if reconciliation records at least one per-row error, the import call
fails with the `ImportError` carrying the total error count and the first-5
summary, and the persisted store is exactly the initial store — every create,
including those of rows that individually succeeded, is rolled back. -/
theorem import_rollback_on_row_errors (s : Store) (file : ParsedFile) (d : Bool)
    (rows : List Row) (df : List StdRow)
    (h1 : remove_blank_rows file = .ok rows)
    (h2 : standardize_dataframe rows = .ok df)
    (h3 : validate_dataframe file.columns df = none)
    (h4 : (process_dataframe s df).2.errors ≠ []) :
    import_from_file s file d =
      (s, .error (.importFailed (importFailedMessage (process_dataframe s df).2.errors))) := by
  have h4' : (process_dataframe s df).2.errors.isEmpty = false := by
    simpa [List.isEmpty_iff] using h4
  simp [import_from_file, h1, h2, h3, h4']

/-- Witness for C1: a two-row file whose first row succeeds and whose second
row fails (missing `breeding_season`) persists nothing and raises the
failure message summarising the one error. -/
theorem import_rollback_on_row_errors_witness :
    import_from_file emptyStore
        ⟨REQUIRED_COLUMNS, [sampleRow, { sampleRow2 with breeding_season := none }]⟩ false =
      (emptyStore, .error (.importFailed
        "Import failed with 1 errors:\nRow 3: NOT NULL constraint failed: preg_check_pregcheck.breeding_season")) :=
  import_rollback_on_row_errors emptyStore
    ⟨REQUIRED_COLUMNS, [sampleRow, { sampleRow2 with breeding_season := none }]⟩ false
    [sampleRow, { sampleRow2 with breeding_season := none }]
    ([sampleRow, { sampleRow2 with breeding_season := none }].map toStdRow)
    (by rfl) (by rfl) (by rfl) (by decide)

/-- C2: on any input whose non-dry import would succeed, the dry run returns
exactly the same statistics while persisting nothing: the store component of
the dry-run result is the initial store. -/
theorem dry_run_preserves_store_and_stats (s : Store) (file : ParsedFile) (st : Stats)
    (h : (import_from_file s file false).2 = .ok st) :
    import_from_file s file true = (s, .ok st) := by
  cases hrb : remove_blank_rows file with
  | error e => simp only [import_from_file, hrb] at h ⊢; simp at h
  | ok rows =>
    simp only [import_from_file, hrb] at h ⊢
    cases hsd : standardize_dataframe rows with
    | error e => simp only [hsd] at h ⊢; simp at h
    | ok df =>
      simp only [hsd] at h ⊢
      cases hv : validate_dataframe file.columns df with
      | some e => simp only [hv] at h ⊢; simp at h
      | none =>
        simp only [hv] at h ⊢
        by_cases he : (process_dataframe s df).2.errors.isEmpty = true
        · simp [he] at h ⊢
          exact h
        · simp [he] at h

/-- Witness for C2: the dry run of a valid one-row file reports one cow and
one check created while the empty store stays empty. -/
theorem dry_run_preserves_store_and_stats_witness :
    import_from_file emptyStore ⟨REQUIRED_COLUMNS, [sampleRow]⟩ true =
      (emptyStore, .ok ⟨1, 1, []⟩) :=
  dry_run_preserves_store_and_stats emptyStore ⟨REQUIRED_COLUMNS, [sampleRow]⟩
    ⟨1, 1, []⟩ (by rfl)

/-- C8: the `is_pregnant` coercion sends `T`/`P` (case-insensitive, after
trimming) to true and `F`/`O` to false, and a row whose `is_pregnant` value
maps to neither (e.g. `"maybe"`) makes the entire import fail with the
invalid-value validation failure — it is never silently treated as false. -/
theorem is_pregnant_coercion :
    (∀ v : String, pyLower (pyStrip v) = "t" ∨ pyLower (pyStrip v) = "p" →
        stdIsPregnant (some v) = some true) ∧
    (∀ v : String, pyLower (pyStrip v) = "f" ∨ pyLower (pyStrip v) = "o" →
        stdIsPregnant (some v) = some false) ∧
    (∀ (store : Store) (file : ParsedFile) (d : Bool) (rows : List Row)
        (r : Row) (v : String),
        remove_blank_rows file = .ok rows → r ∈ rows → r.is_pregnant = some v →
        stdIsPregnant (some v) = none →
        import_from_file store file d =
          (store, .error (.validation "Invalid values in \"is_pregnant\" column. Use T/F or P/O."))) := by
  refine ⟨?_, ?_, ?_⟩
  · intro v h; rcases h with h | h <;> simp [stdIsPregnant, h]
  · intro v h; rcases h with h | h <;> simp [stdIsPregnant, h]
  · intro store file d rows r v hrb hmem hip hbad
    have hall : (rows.map toStdRow).all (fun r => r.is_pregnant.isSome) = false := by
      rw [List.all_eq_false]
      exact ⟨toStdRow r, List.mem_map_of_mem toStdRow hmem, by simp [toStdRow, hip, hbad]⟩
    have hfail : standardize_dataframe rows =
        .error (.validation "Invalid values in \"is_pregnant\" column. Use T/F or P/O.") := by
      simp [standardize_dataframe, hall]
    simp [import_from_file, hrb, hfail]

/-- Witness for C8: `" p "` coerces to true, `"O"` to false, and a file whose
row carries `is_pregnant = "maybe"` fails wholesale with the invalid-value
validation failure. -/
theorem is_pregnant_coercion_witness :
    stdIsPregnant (some " P ") = some true ∧
    stdIsPregnant (some "O") = some false ∧
    import_from_file emptyStore
        ⟨REQUIRED_COLUMNS, [{ sampleRow with is_pregnant := some "maybe" }]⟩ false =
      (emptyStore, .error (.validation "Invalid values in \"is_pregnant\" column. Use T/F or P/O.")) :=
  ⟨is_pregnant_coercion.1 " P " (Or.inr (by decide)),
   is_pregnant_coercion.2.1 "O" (Or.inr (by decide)),
   is_pregnant_coercion.2.2 emptyStore
     ⟨REQUIRED_COLUMNS, [{ sampleRow with is_pregnant := some "maybe" }]⟩ false
     [{ sampleRow with is_pregnant := some "maybe" }]
     { sampleRow with is_pregnant := some "maybe" } "maybe"
     (by rfl) (by decide) (by rfl) (by rfl)⟩

/-- A second import row that duplicates `sampleRow`'s (`ear_tag_id`,
`birth_year`, `check_date`) key while differing in `eid` and `is_pregnant`. -/
def sampleRowDupTag : Row :=
  { sampleRow with eid := some "EID456", is_pregnant := some "O" }

/-- C4: two rows with the same non-empty cleaned (`ear_tag_id`, `birth_year`,
`check_date`) key — whatever their other fields — put that key among the
Group A duplicate groups, the reported row numbers of that group contain both
rows' positional indices plus the fixed offset 2 (first data row reported as
row 2), and the import as a whole fails with the combined duplicate-records
validation failure. -/
theorem duplicate_ear_tag_rows_fail_import
    (cols : List String) (df : List StdRow) (i j : Nat) (k : String × Int × Nat)
    (hi : i < df.length) (hj : j < df.length) (hne : i ≠ j)
    (hki : earTagKeyOf (cleanRow (df.get ⟨i, hi⟩)) = some k)
    (hkj : earTagKeyOf (cleanRow (df.get ⟨j, hj⟩)) = some k)
    (hcols : assert_required_columns cols = none)
    (hcd : ∀ r ∈ df, r.check_date.isSome)
    (hip : ∀ r ∈ df, r.is_pregnant.isSome) :
    k ∈ earTagDupKeys (df.map cleanRow) ∧
    i + 2 ∈ earTagRowNumbers (df.map cleanRow) k ∧
    j + 2 ∈ earTagRowNumbers (df.map cleanRow) k ∧
    validate_dataframe cols df = some (.validation (duplicatesErrorMessage
      (check_duplicates_by_ear_tag (df.map cleanRow) ++
        check_duplicates_by_eid (df.map cleanRow)))) ∧
    ∀ (s : Store) (file : ParsedFile) (d : Bool) (rows : List Row),
      file.columns = cols → remove_blank_rows file = .ok rows →
      standardize_dataframe rows = .ok df →
      import_from_file s file d = (s, .error (.validation (duplicatesErrorMessage
        (check_duplicates_by_ear_tag (df.map cleanRow) ++
          check_duplicates_by_eid (df.map cleanRow))))) := by
  have hi' : i < (df.map cleanRow).length := by simpa using hi
  have hj' : j < (df.map cleanRow).length := by simpa using hj
  have hgi : (df.map cleanRow).get ⟨i, hi'⟩ = cleanRow (df.get ⟨i, hi⟩) := by simp
  have hgj : (df.map cleanRow).get ⟨j, hj'⟩ = cleanRow (df.get ⟨j, hj⟩) := by simp
  have hki' : earTagKeyOf ((df.map cleanRow).get ⟨i, hi'⟩) = some k := by
    rw [hgi]; exact hki
  have hkj' : earTagKeyOf ((df.map cleanRow).get ⟨j, hj'⟩) = some k := by
    rw [hgj]; exact hkj
  have hkmem : k ∈ earTagDupKeys (df.map cleanRow) :=
    mem_earTagDupKeys_of_two hi' hj' hne hki' hkj'
  have hri : i + 2 ∈ earTagRowNumbers (df.map cleanRow) k :=
    mem_earTagRowNumbers hi' (earTagMask_of_keyOf hki')
  have hrj : j + 2 ∈ earTagRowNumbers (df.map cleanRow) k :=
    mem_earTagRowNumbers hj' (earTagMask_of_keyOf hkj')
  have hd1ne : check_duplicates_by_ear_tag (df.map cleanRow) ≠ [] := by
    unfold check_duplicates_by_ear_tag
    intro hc
    rw [List.map_eq_nil_iff] at hc
    exact List.ne_nil_of_mem hkmem hc
  have hne2 : check_duplicates_by_ear_tag (df.map cleanRow) ++
      check_duplicates_by_eid (df.map cleanRow) ≠ [] := by
    intro hc
    exact hd1ne (List.append_eq_nil.mp hc).1
  have hv := validate_dataframe_dup_result hcols hcd hip hne2
  refine ⟨hkmem, hri, hrj, hv, ?_⟩
  intro s file d rows hfc hrb hsd
  exact import_fails_with hrb hsd (by rw [hfc]; exact hv)

/-- Witness for C4: a file whose two rows share (`123`, 2020, same date) but
differ in `eid` and `is_pregnant` fails; the one duplicate group carries row
numbers 2 and 3 (positional indices 0 and 1 plus the offset 2). -/
theorem duplicate_ear_tag_rows_fail_import_witness :
    ("123", (2020 : Int), 738959) ∈
      earTagDupKeys (([sampleRow, sampleRowDupTag].map toStdRow).map cleanRow) ∧
    2 ∈ earTagRowNumbers (([sampleRow, sampleRowDupTag].map toStdRow).map cleanRow)
      ("123", 2020, 738959) ∧
    3 ∈ earTagRowNumbers (([sampleRow, sampleRowDupTag].map toStdRow).map cleanRow)
      ("123", 2020, 738959) ∧
    import_from_file emptyStore ⟨REQUIRED_COLUMNS, [sampleRow, sampleRowDupTag]⟩ false =
      (emptyStore, .error (.validation
        "Found 1 duplicate records:<br><ul><li>Duplicate. Ear Tag: 123, Birth Year: 2020, Check Date: 738959 (rows: 2, 3)</li></ul>")) := by
  have h := duplicate_ear_tag_rows_fail_import REQUIRED_COLUMNS
    ([sampleRow, sampleRowDupTag].map toStdRow) 0 1 ("123", 2020, 738959)
    (by decide) (by decide) (by decide) (by rfl) (by rfl) (by rfl) (by decide) (by decide)
  refine ⟨h.1, h.2.1, h.2.2.1, ?_⟩
  have h4 := h.2.2.2.2 emptyStore ⟨REQUIRED_COLUMNS, [sampleRow, sampleRowDupTag]⟩ false
    [sampleRow, sampleRowDupTag] rfl (by rfl) (by rfl)
  rw [h4]
  decide

/-- C5: a row whose Group B key is incomplete (empty or missing `eid`, or
missing `check_date`) never appears among the reported row numbers of any
Group B duplicate group; the same exemption holds for Group A; in particular
two rows whose `eid` cells are empty or missing are never flagged against
each other by the eid-based check. -/
theorem blank_eid_exempt_from_duplicate_checks :
    (∀ (dfc : List CRow) (i : Nat) (hi : i < dfc.length),
        eidKeyOf (dfc.get ⟨i, hi⟩) = none →
        ∀ k ∈ eidDupKeys dfc, i + 2 ∉ eidRowNumbers dfc k) ∧
    (∀ (dfc : List CRow) (i : Nat) (hi : i < dfc.length),
        earTagKeyOf (dfc.get ⟨i, hi⟩) = none →
        ∀ k ∈ earTagDupKeys dfc, i + 2 ∉ earTagRowNumbers dfc k) ∧
    (∀ (dfc : List CRow) (i j : Nat) (hi : i < dfc.length) (hj : j < dfc.length),
        (dfc.get ⟨i, hi⟩).eid = none ∨ (dfc.get ⟨i, hi⟩).eid = some "" →
        (dfc.get ⟨j, hj⟩).eid = none ∨ (dfc.get ⟨j, hj⟩).eid = some "" →
        ∀ k ∈ eidDupKeys dfc,
          ¬(i + 2 ∈ eidRowNumbers dfc k ∧ j + 2 ∈ eidRowNumbers dfc k)) := by
  have hblank : ∀ (r : CRow), r.eid = none ∨ r.eid = some "" → eidKeyOf r = none := by
    intro r hr
    rcases r with ⟨t, y, e, d⟩
    rcases hr with h | h <;> cases d <;> simp_all [eidKeyOf]
  refine ⟨?_, ?_, ?_⟩
  · intro dfc i hi hk k hkmem
    exact not_mem_eidRowNumbers hi hk hkmem
  · intro dfc i hi hk k hkmem
    exact not_mem_earTagRowNumbers hi hk hkmem
  · intro dfc i j hi hj hbi hbj k hkmem hand
    exact not_mem_eidRowNumbers hi (hblank _ hbi) hkmem hand.1

/-- A cleaned duplicate-check row with a missing `eid`. -/
def crowNoEid : CRow := ⟨some "1", some 2020, none, some 5⟩

/-- A cleaned duplicate-check row whose `eid` strips to empty. -/
def crowEmptyEid : CRow := ⟨some "2", some 2021, some "", some 5⟩

/-- Two cleaned rows sharing the non-empty eid key (`X`, 5). -/
def crowEidX1 : CRow := ⟨some "3", some 2020, some "X", some 5⟩

/-- See `crowEidX1`. -/
def crowEidX2 : CRow := ⟨some "4", some 2021, some "X", some 5⟩

/-- Witness for C5: in a frame where rows 0 and 1 have missing/empty `eid`
and rows 2 and 3 genuinely duplicate by eid, the blank rows are absent from
the one Group B duplicate group and are not flagged against each other. -/
theorem blank_eid_exempt_from_duplicate_checks_witness :
    2 ∉ eidRowNumbers [crowNoEid, crowEmptyEid, crowEidX1, crowEidX2] ("X", 5) ∧
    ¬(2 ∈ eidRowNumbers [crowNoEid, crowEmptyEid, crowEidX1, crowEidX2] ("X", 5) ∧
      3 ∈ eidRowNumbers [crowNoEid, crowEmptyEid, crowEidX1, crowEidX2] ("X", 5)) := by
  constructor
  · exact blank_eid_exempt_from_duplicate_checks.1
      [crowNoEid, crowEmptyEid, crowEidX1, crowEidX2] 0 (by decide) (by rfl)
      ("X", 5) (by decide)
  · exact blank_eid_exempt_from_duplicate_checks.2.2
      [crowNoEid, crowEmptyEid, crowEidX1, crowEidX2] 0 1 (by decide) (by decide)
      (Or.inl (by rfl)) (Or.inr (by rfl)) ("X", 5) (by decide)

/-- C6: whenever either duplicate dimension finds groups, the import's single
validation failure is built from the concatenation of the Group A findings
and the Group B findings — every group from both dimensions in one message —
and the import fails with exactly that failure. -/
theorem duplicate_checks_combined_failure
    (cols : List String) (df : List StdRow)
    (hcols : assert_required_columns cols = none)
    (hcd : ∀ r ∈ df, r.check_date.isSome)
    (hip : ∀ r ∈ df, r.is_pregnant.isSome)
    (hne : check_duplicates_by_ear_tag (df.map cleanRow) ++
        check_duplicates_by_eid (df.map cleanRow) ≠ []) :
    validate_dataframe cols df = some (.validation (duplicatesErrorMessage
      (check_duplicates_by_ear_tag (df.map cleanRow) ++
        check_duplicates_by_eid (df.map cleanRow)))) ∧
    ∀ (s : Store) (file : ParsedFile) (d : Bool) (rows : List Row),
      file.columns = cols → remove_blank_rows file = .ok rows →
      standardize_dataframe rows = .ok df →
      import_from_file s file d = (s, .error (.validation (duplicatesErrorMessage
        (check_duplicates_by_ear_tag (df.map cleanRow) ++
          check_duplicates_by_eid (df.map cleanRow))))) := by
  have hv := validate_dataframe_dup_result hcols hcd hip hne
  exact ⟨hv, fun s file d rows hfc hrb hsd =>
    import_fails_with hrb hsd (by rw [hfc]; exact hv)⟩

/-- A row duplicating nothing by ear tag but sharing its `eid` and
`check_date` with `sampleRowEidB`. -/
def sampleRowEidA : Row :=
  { sampleRow with
    ear_tag_id := some "777"
    birth_year := some 2010
    eid := some "EIDX"
    check_date := some 738970 }

/-- See `sampleRowEidA`. -/
def sampleRowEidB : Row :=
  { sampleRow with
    ear_tag_id := some "888"
    birth_year := some 2011
    eid := some "EIDX"
    check_date := some 738970 }

set_option maxRecDepth 4096 in
/-- Witness for C6: a file with one Group A duplicate pair and one Group B
duplicate pair fails with a single message reporting both groups. -/
theorem duplicate_checks_combined_failure_witness :
    import_from_file emptyStore
      ⟨REQUIRED_COLUMNS, [sampleRow, sampleRowDupTag, sampleRowEidA, sampleRowEidB]⟩ false =
      (emptyStore, .error (.validation
        "Found 2 duplicate records:<br><ul><li>Duplicate. Ear Tag: 123, Birth Year: 2020, Check Date: 738959 (rows: 2, 3)</li><li>Duplicate. EID: EIDX, Check Date: 738970 (rows: 4, 5)</li></ul>")) := by
  have h := duplicate_checks_combined_failure REQUIRED_COLUMNS
    ([sampleRow, sampleRowDupTag, sampleRowEidA, sampleRowEidB].map toStdRow)
    (by rfl) (by decide) (by decide) (by decide)
  have h2 := h.2 emptyStore
    ⟨REQUIRED_COLUMNS, [sampleRow, sampleRowDupTag, sampleRowEidA, sampleRowEidB]⟩ false
    [sampleRow, sampleRowDupTag, sampleRowEidA, sampleRowEidB] rfl (by rfl) (by rfl)
  rw [h2]
  decide

/-- C9: animal identity during reconciliation.  With a truthy `eid` the cow is
matched by the exact (`eid`, `birth_year`, `ear_tag_id`) triple (a unique
match creates nothing) or created with exactly those keys; with no truthy
`eid` but a non-empty tag and truthy birth year it is matched-or-created by
that pair; with neither key the check record is created with a null cow
reference and the row is not an error.  A creation returns `cow_created =
true` (counted into `cows_created`), every accepted row adds one pregnancy
check, and a valid single-row import with a new unique key commits with
statistics (1, 1, no errors). -/
theorem reconciliation_match_or_create :
    (∀ (store : Store) (r : StdRow) (pc : PregCheckRec),
        strTruthy (extract_cow_data r).eid = false →
        ((extract_cow_data r).ear_tag_id = "" ∨
          intTruthy (extract_cow_data r).birth_year = false) →
        createPregCheck (extract_pregcheck_data r none) = .ok pc →
        process_row store r = (⟨store.cows, store.pregchecks ++ [pc]⟩, .ok false) ∧
          pc.cow = none) ∧
    (∀ (store : Store) (r : StdRow) (c : CowRec) (pc : PregCheckRec),
        strTruthy (extract_cow_data r).eid = true →
        store.cows.filter (fun cw =>
          cw.eid == (extract_cow_data r).eid &&
          cw.birth_year == (extract_cow_data r).birth_year &&
          cw.ear_tag_id == (extract_cow_data r).ear_tag_id) = [c] →
        createPregCheck (extract_pregcheck_data r (some c.id)) = .ok pc →
        process_row store r = (⟨store.cows, store.pregchecks ++ [pc]⟩, .ok false)) ∧
    (∀ (store : Store) (r : StdRow) (pc : PregCheckRec),
        strTruthy (extract_cow_data r).eid = true →
        store.cows.filter (fun cw =>
          cw.eid == (extract_cow_data r).eid &&
          cw.birth_year == (extract_cow_data r).birth_year &&
          cw.ear_tag_id == (extract_cow_data r).ear_tag_id) = [] →
        store.cows.any (fun cw => cw.eid == (extract_cow_data r).eid) = false →
        ((extract_cow_data r).birth_year.isSome && store.cows.any (fun cw =>
          cw.ear_tag_id == (extract_cow_data r).ear_tag_id &&
          cw.birth_year == (extract_cow_data r).birth_year)) = false →
        createPregCheck (extract_pregcheck_data r (some store.cows.length)) = .ok pc →
        process_row store r =
          (⟨store.cows ++ [⟨store.cows.length, (extract_cow_data r).ear_tag_id,
              (extract_cow_data r).birth_year, (extract_cow_data r).eid, ""⟩],
            store.pregchecks ++ [pc]⟩, .ok true)) ∧
    (∀ (store : Store) (r : StdRow) (pc : PregCheckRec),
        strTruthy (extract_cow_data r).eid = false →
        (extract_cow_data r).ear_tag_id ≠ "" →
        intTruthy (extract_cow_data r).birth_year = true →
        store.cows.filter (fun cw =>
          cw.ear_tag_id == (extract_cow_data r).ear_tag_id &&
          cw.birth_year == (extract_cow_data r).birth_year) = [] →
        createPregCheck (extract_pregcheck_data r (some store.cows.length)) = .ok pc →
        process_row store r =
          (⟨store.cows ++ [⟨store.cows.length, (extract_cow_data r).ear_tag_id,
              (extract_cow_data r).birth_year, none, ""⟩],
            store.pregchecks ++ [pc]⟩, .ok true)) ∧
    (∀ (store : Store) (file : ParsedFile) (r0 : Row) (r : StdRow) (s' : Store)
        (created : Bool),
        remove_blank_rows file = .ok [r0] →
        standardize_dataframe [r0] = .ok [r] →
        validate_dataframe file.columns [r] = none →
        process_row store r = (s', .ok created) →
        import_from_file store file false =
          (s', .ok ⟨if created then 1 else 0, 1, []⟩)) := by
  refine ⟨?_, ?_, ?_, ?_, ?_⟩
  · intro store r pc heid hkey hpc
    have hcow : pc.cow = none := by
      unfold createPregCheck at hpc
      cases hbs : (extract_pregcheck_data r none).breeding_season with
      | none => rw [hbs] at hpc; cases hpc
      | some n =>
        rw [hbs] at hpc
        cases hpc
        rfl
    have hg : get_or_create_cow store (extract_cow_data r) = .ok (none, false, store) := by
      unfold get_or_create_cow
      rcases hkey with h | h <;> simp [heid, h]
    refine ⟨?_, hcow⟩
    unfold process_row
    rw [hg]
    simp [hpc]
  · intro store r c pc heid hm hpc
    have hg : get_or_create_cow store (extract_cow_data r) = .ok (some c.id, false, store) := by
      unfold get_or_create_cow
      simp [heid, hm]
    unfold process_row
    rw [hg]
    simp [hpc]
  · intro store r pc heid hm hce hct hpc
    have hg : get_or_create_cow store (extract_cow_data r) =
        .ok (some store.cows.length, true,
          ⟨store.cows ++ [⟨store.cows.length, (extract_cow_data r).ear_tag_id,
            (extract_cow_data r).birth_year, (extract_cow_data r).eid, ""⟩],
           store.pregchecks⟩) := by
      unfold get_or_create_cow createCow
      have hce' : (((extract_cow_data r).eid.isSome : Bool) && store.cows.any
          (fun cw => cw.eid == (extract_cow_data r).eid)) = false := by
        simp [hce]
      simp [heid, hm, hce', hct]
    unfold process_row
    rw [hg]
    simp [hpc]
  · intro store r pc heid htag hby hm hpc
    have hnc : ∀ cw ∈ store.cows,
        ¬(cw.ear_tag_id = (extract_cow_data r).ear_tag_id ∧
          cw.birth_year = (extract_cow_data r).birth_year) := by
      rintro cw hcw ⟨h1, h2⟩
      have hmem : cw ∈ store.cows.filter (fun cw =>
          cw.ear_tag_id == (extract_cow_data r).ear_tag_id &&
          cw.birth_year == (extract_cow_data r).birth_year) :=
        List.mem_filter.mpr ⟨hcw, by simp [h1, h2]⟩
      rw [hm] at hmem
      cases hmem
    have hg : get_or_create_cow store (extract_cow_data r) =
        .ok (some store.cows.length, true,
          ⟨store.cows ++ [⟨store.cows.length, (extract_cow_data r).ear_tag_id,
            (extract_cow_data r).birth_year, none, ""⟩],
           store.pregchecks⟩) := by
      unfold get_or_create_cow createCow
      have hnot : ¬((extract_cow_data r).birth_year.isSome = true ∧
          ∃ x ∈ store.cows, x.ear_tag_id = (extract_cow_data r).ear_tag_id ∧
            x.birth_year = (extract_cow_data r).birth_year) := by
        rintro ⟨-, x, hx, hp⟩
        exact hnc x hx hp
      simp [heid, htag, hby, hm, hnot]
    unfold process_row
    rw [hg]
    simp [hpc]
  · intro store file r0 r s' created hrb hsd hv hpr
    have hpd : process_dataframe store [r] =
        (s', ⟨if created then 1 else 0, 1, []⟩) := by
      unfold process_dataframe process_dataframe_aux
      rw [hpr]
      cases created <;> simp [resetStats, process_dataframe_aux]
    simp [import_from_file, hrb, hsd, hv, hpd]

/-- Witness for C9: importing one valid row with a fresh (`eid`,
`birth_year`, `ear_tag_id`) key into the empty store commits exactly one new
cow carrying those keys and one pregnancy check bound to it, with statistics
`cows_created = 1`, `pregchecks_created = 1` and no errors. -/
theorem reconciliation_match_or_create_witness :
    import_from_file emptyStore ⟨REQUIRED_COLUMNS, [sampleRow]⟩ false =
      (⟨[⟨0, "123", some 2020, some "EID123", ""⟩],
        [⟨2024, some 738959, "ok", some 0, some true, false⟩]⟩,
       .ok ⟨1, 1, []⟩) := by
  have hpr := reconciliation_match_or_create.2.2.1 emptyStore (toStdRow sampleRow)
    ⟨2024, some 738959, "ok", some 0, some true, false⟩
    (by decide) (by decide) (by decide) (by decide) (by decide)
  have he := reconciliation_match_or_create.2.2.2.2 emptyStore
    ⟨REQUIRED_COLUMNS, [sampleRow]⟩ sampleRow (toStdRow sampleRow) _ true
    (by rfl) (by rfl) (by rfl) hpr
  rw [he]
  decide

/-- Counterexample to C7 as stated: a row with an empty `is_pregnant` makes
the import fail with the invalid-value failure raised by
`standardize_dataframe` (which runs first), not with the
`RequiredFieldEmpty`-style failure the claim promises for both fields. -/
theorem empty_is_pregnant_error_kind_counterexample :
    import_from_file emptyStore
        ⟨REQUIRED_COLUMNS, [{ sampleRow with is_pregnant := none }]⟩ false =
      (emptyStore, .error (.validation "Invalid values in \"is_pregnant\" column. Use T/F or P/O.")) ∧
    import_from_file emptyStore
        ⟨REQUIRED_COLUMNS, [{ sampleRow with is_pregnant := none }]⟩ false ≠
      (emptyStore, .error (.validation "Required field \"is_pregnant\" contains empty values")) := by
  exact ⟨by decide, by decide⟩

/-- C7 (amended): for every surviving row `check_date` must be non-empty, and
an empty `check_date` surfaces the required-field-empty failure for
`check_date`; an empty `is_pregnant` is instead rejected one stage earlier by
standardization (whose success guarantees the whole `is_pregnant` column is
populated), so the required-field-empty failure reaches the caller only for
`check_date`. -/
theorem required_field_empty_amended :
    (∀ (cols : List String) (df : List StdRow),
        assert_required_columns cols = none →
        (∃ r ∈ df, r.check_date = none) →
        validate_dataframe cols df =
          some (.validation "Required field \"check_date\" contains empty values")) ∧
    (∀ (rows : List Row) (df : List StdRow),
        standardize_dataframe rows = .ok df → ∀ r ∈ df, r.is_pregnant.isSome) ∧
    (∀ (store : Store) (file : ParsedFile) (d : Bool) (rows : List Row) (df : List StdRow),
        remove_blank_rows file = .ok rows → standardize_dataframe rows = .ok df →
        (∃ r ∈ df, r.check_date = none) →
        import_from_file store file d =
          (store, .error (.validation "Required field \"check_date\" contains empty values"))) := by
  have hval : ∀ (cols : List String) (df : List StdRow),
      assert_required_columns cols = none →
      (∃ r ∈ df, r.check_date = none) →
      validate_dataframe cols df =
        some (.validation "Required field \"check_date\" contains empty values") := by
    intro cols df hcols ⟨r, hr, hcd⟩
    have : df.any (fun r => r.check_date.isNone) = true := by
      rw [List.any_eq_true]; exact ⟨r, hr, by simp [hcd]⟩
    simp [validate_dataframe, hcols, this]
  refine ⟨hval, ?_, ?_⟩
  · intro rows df h r hr
    unfold standardize_dataframe at h
    by_cases hall : (rows.map toStdRow).all (fun r => r.is_pregnant.isSome) = true
    · simp only [hall, if_true] at h
      cases h
      exact List.all_eq_true.mp hall r hr
    · simp [hall] at h
  · intro store file d rows df hrb hsd hex
    have hcols : assert_required_columns file.columns = none := by
      unfold remove_blank_rows at hrb
      split at hrb
      · cases hrb
      · assumption
    simp [import_from_file, hrb, hsd, hval file.columns df hcols hex]

/-- Witness for C7 (amended): a row missing only `check_date` fails with the
required-field-empty failure for `check_date`, applied end to end. -/
theorem required_field_empty_amended_witness :
    import_from_file emptyStore
        ⟨REQUIRED_COLUMNS, [{ sampleRow with check_date := none }]⟩ false =
      (emptyStore, .error (.validation "Required field \"check_date\" contains empty values")) :=
  required_field_empty_amended.2.2 emptyStore
    ⟨REQUIRED_COLUMNS, [{ sampleRow with check_date := none }]⟩ false
    [{ sampleRow with check_date := none }]
    [toStdRow { sampleRow with check_date := none }]
    (by rfl) (by rfl)
    ⟨toStdRow { sampleRow with check_date := none }, by decide, by rfl⟩

/-! ## Helper lemmas about the legacy importer -/

lemma storeExtends_refl (s : Store) : StoreExtends s s :=
  ⟨List.prefix_refl _, List.prefix_refl _⟩

lemma storeExtends_trans {a b c : Store}
    (h1 : StoreExtends a b) (h2 : StoreExtends b c) : StoreExtends a c :=
  ⟨h1.1.trans h2.1, h1.2.trans h2.2⟩

lemma createCow_ok {s : Store} {tag : String} {by_ : Option Int} {eid : Option String}
    {i : Nat} {s' : Store} (h : createCow s tag by_ eid = .ok (i, s')) :
    s' = { s with cows := s.cows ++ [⟨s.cows.length, tag, by_, eid, ""⟩] } ∧
    i = s.cows.length := by
  unfold createCow at h
  split_ifs at h
  all_goals cases h
  all_goals exact ⟨rfl, rfl⟩

lemma legacyGetOrCreate_extends {s : Store} {tag : String} {by_ : Int}
    {eid : Option String} {cid : Nat} {s₁ : Store}
    (h : legacyGetOrCreate s tag by_ eid = .ok (cid, s₁)) : StoreExtends s s₁ := by
  unfold legacyGetOrCreate at h
  split_ifs at h <;>
  · split at h
    · injection h with hp
      injection hp with hp1 hp2
      rw [← hp2]
      exact storeExtends_refl s
    · obtain ⟨hs, -⟩ := createCow_ok h
      subst hs
      exact ⟨List.prefix_append _ _, List.prefix_refl _⟩
    · cases h

lemma legacyProcessRow_spec (s : Store) (r : LegacyRow) :
    ((legacyProcessRow s r).2 = none ∨ (legacyProcessRow s r).1 = s) ∧
    StoreExtends s (legacyProcessRow s r).1 := by
  unfold legacyProcessRow
  cases hby : r.birth_year with
  | none => exact ⟨Or.inr rfl, storeExtends_refl s⟩
  | some b =>
    dsimp only
    split
    · exact ⟨Or.inr rfl, storeExtends_refl s⟩
    · cases hbs : r.breeding_season with
      | none => exact ⟨Or.inr rfl, storeExtends_refl s⟩
      | some season =>
        dsimp only
        cases hcd : r.check_date with
        | none => exact ⟨Or.inr rfl, storeExtends_refl s⟩
        | some cd =>
          dsimp only
          split
          · exact ⟨Or.inl rfl, ⟨List.prefix_refl _, List.prefix_append _ _⟩⟩
          · split
            · exact ⟨Or.inr rfl, storeExtends_refl s⟩
            · next cid s₁ heq =>
              refine ⟨Or.inl rfl, ?_⟩
              exact storeExtends_trans (legacyGetOrCreate_extends heq)
                ⟨List.prefix_refl _, List.prefix_append _ _⟩

lemma legacyAux_cons (k : Nat) (s : Store) (r : LegacyRow) (rest : List LegacyRow) :
    legacyAux k s (r :: rest) =
      match legacyProcessRow s r with
      | (s', none) => legacyAux (k + 1) s' rest
      | (s', some msg) =>
        ((legacyAux (k + 1) s' rest).1,
         ("Row " ++ toString (k + 1) ++ ": " ++ msg) :: (legacyAux (k + 1) s' rest).2) :=
  rfl

lemma legacyAux_extends (k : Nat) (s : Store) (rows : List LegacyRow) :
    StoreExtends s (legacyAux k s rows).1 := by
  induction rows generalizing k s with
  | nil => exact storeExtends_refl s
  | cons r rest ih =>
    rw [legacyAux_cons]
    cases hr : legacyProcessRow s r with
    | mk s' e =>
      have hext : StoreExtends s s' := by
        have hsp := (legacyProcessRow_spec s r).2
        rw [hr] at hsp
        exact hsp
      cases e with
      | none => exact storeExtends_trans hext (ih (k + 1) s')
      | some m => exact storeExtends_trans hext (ih (k + 1) s')

lemma legacyAux_append (k : Nat) (s : Store) (xs ys : List LegacyRow) :
    legacyAux k s (xs ++ ys) =
      ((legacyAux (k + xs.length) (legacyAux k s xs).1 ys).1,
       (legacyAux k s xs).2 ++ (legacyAux (k + xs.length) (legacyAux k s xs).1 ys).2) := by
  induction xs generalizing k s with
  | nil => simp [legacyAux]
  | cons r rest ih =>
    rw [List.cons_append, legacyAux_cons k s r (rest ++ ys), legacyAux_cons k s r rest]
    cases hr : legacyProcessRow s r with
    | mk s' e =>
      have hlen : k + 1 + rest.length = k + (rest.length + 1) := by omega
      cases e with
      | none =>
        dsimp only
        rw [ih (k + 1) s']
        simp [hlen]
      | some m =>
        dsimp only
        rw [ih (k + 1) s']
        simp [hlen]

/-- C10: the legacy view-based importer runs with no transaction.  When row
`bad` (at positional index `pre.length`) fails after the rows of `pre` were
processed, the call still returns: everything `pre` created stays in the
store untouched (the pre-failure store is a prefix of the final store), the
failing row itself persists nothing, its error is recorded as
`'Row {idx+1}: message'` — offset 1, unlike the service's offset 2 — and
processing continues through `post` with the store carried forward. -/
theorem legacy_import_no_transaction
    (s : Store) (pre post : List LegacyRow) (bad : LegacyRow) (msg : String)
    (hfail : (legacyProcessRow (legacyAux 0 s pre).1 bad).2 = some msg) :
    import_cow_pregcheck_records s (pre ++ bad :: post) =
      ((legacyAux (pre.length + 1) (legacyAux 0 s pre).1 post).1,
       (legacyAux 0 s pre).2 ++
         ("Row " ++ toString (pre.length + 1) ++ ": " ++ msg) ::
           (legacyAux (pre.length + 1) (legacyAux 0 s pre).1 post).2) ∧
    (legacyProcessRow (legacyAux 0 s pre).1 bad).1 = (legacyAux 0 s pre).1 ∧
    StoreExtends (legacyAux 0 s pre).1
      (import_cow_pregcheck_records s (pre ++ bad :: post)).1 := by
  have hmut : (legacyProcessRow (legacyAux 0 s pre).1 bad).1 = (legacyAux 0 s pre).1 := by
    rcases (legacyProcessRow_spec (legacyAux 0 s pre).1 bad).1 with h | h
    · rw [hfail] at h; cases h
    · exact h
  have hb : legacyProcessRow (legacyAux 0 s pre).1 bad = ((legacyAux 0 s pre).1, some msg) := by
    rcases hp : legacyProcessRow (legacyAux 0 s pre).1 bad with ⟨a, b⟩
    rw [hp] at hmut hfail
    simp only at hmut hfail
    rw [hmut, hfail]
  have hstep : legacyAux (0 + pre.length) (legacyAux 0 s pre).1 (bad :: post) =
      ((legacyAux (pre.length + 1) (legacyAux 0 s pre).1 post).1,
       ("Row " ++ toString (pre.length + 1) ++ ": " ++ msg) ::
         (legacyAux (pre.length + 1) (legacyAux 0 s pre).1 post).2) := by
    rw [legacyAux_cons, hb]
    simp [Nat.zero_add]
  have hmain : import_cow_pregcheck_records s (pre ++ bad :: post) =
      ((legacyAux (pre.length + 1) (legacyAux 0 s pre).1 post).1,
       (legacyAux 0 s pre).2 ++
         ("Row " ++ toString (pre.length + 1) ++ ": " ++ msg) ::
           (legacyAux (pre.length + 1) (legacyAux 0 s pre).1 post).2) := by
    unfold import_cow_pregcheck_records
    rw [legacyAux_append 0 s pre (bad :: post), hstep]
  refine ⟨hmain, hmut, ?_⟩
  rw [hmain]
  exact legacyAux_extends (pre.length + 1) (legacyAux 0 s pre).1 post

/-- A valid legacy import row. -/
def legacyRowOk1 : LegacyRow :=
  ⟨some "123", some 2020, some "EID1", some 2024, some 100, some "c", some "T", some ""⟩

/-- A legacy row whose `birth_year` cell is NaN, so `int()` raises. -/
def legacyRowBad : LegacyRow :=
  ⟨some "456", none, some "EID2", some 2024, some 101, none, some "F", none⟩

/-- A second valid legacy import row. -/
def legacyRowOk2 : LegacyRow :=
  ⟨some "789", some 2021, some "EID3", some 2024, some 102, none, some "F", none⟩

/-- Witness for C10: with a failing middle row, the legacy importer keeps the
first row's cow and check, records `Row 2: ...` (offset 1), and still
processes the third row — two cows and two checks persist, nothing is rolled
back. -/
theorem legacy_import_no_transaction_witness :
    import_cow_pregcheck_records emptyStore [legacyRowOk1, legacyRowBad, legacyRowOk2] =
      (⟨[⟨0, "123", some 2020, some "EID1", ""⟩, ⟨1, "789", some 2021, some "EID3", ""⟩],
        [⟨2024, some 100, "c", some 0, some true, false⟩,
         ⟨2024, some 102, "", some 1, some true, false⟩]⟩,
       ["Row 2: cannot convert float NaN to integer"]) ∧
    StoreExtends (legacyAux 0 emptyStore [legacyRowOk1]).1
      (import_cow_pregcheck_records emptyStore [legacyRowOk1, legacyRowBad, legacyRowOk2]).1 := by
  have h := legacy_import_no_transaction emptyStore [legacyRowOk1] [legacyRowOk2]
    legacyRowBad "cannot convert float NaN to integer" (by decide)
  refine ⟨?_, h.2.2⟩
  rw [show [legacyRowOk1, legacyRowBad, legacyRowOk2] =
      [legacyRowOk1] ++ legacyRowBad :: [legacyRowOk2] from rfl]
  rw [h.1]
  decide

end RanchTools
